import Mathlib

set_option autoImplicit false

/-
  Shallow embedding of growthbook-openfeature-provider-python,
  file src/growthbook_openfeature_provider/provider.py.

  Python values are modelled by the inductive `PyVal`; machine floats are
  idealised as rationals (no claim below depends on float rounding).
  Exceptions are modelled by `Except PyExc`, where `PyExc` records the
  exception class (only the classes the adapter branches on are
  distinguished) and the exception text `str(e)`.
-/

namespace GrowthBookOF

/-- Dynamic (Python) values that can appear as flag values, defaults and
attribute values. -/
inductive PyVal where
  | none
  | bool (b : Bool)
  | int (n : Int)
  | float (q : Rat)
  | str (s : String)
  | list (xs : List PyVal)
  | dict (fs : List (String × PyVal))

/-- Python `x is None` test. -/
def PyVal.isNone : PyVal → Bool
  | PyVal.none => true
  | _ => false

/-- Python truthiness (`bool(x)`): None, False, 0, 0.0, empty string, empty
list and empty dict are falsy. -/
def pyTruthy : PyVal → Bool
  | PyVal.none => false
  | PyVal.bool b => b
  | PyVal.int n => n != 0
  | PyVal.float q => q != 0
  | PyVal.str s => !s.isEmpty
  | PyVal.list xs => !xs.isEmpty
  | PyVal.dict fs => !fs.isEmpty

/-- Python `str(x)`. Integers, booleans, strings and None are rendered as
Python renders them; the rendering of floats, lists and dicts is modelled
coarsely (no claim depends on it). -/
def pyStr : PyVal → String
  | PyVal.none => "None"
  | PyVal.bool b => if b then "True" else "False"
  | PyVal.int n => toString n
  | PyVal.float q => toString q
  | PyVal.str s => s
  | PyVal.list _ => "[...]"
  | PyVal.dict _ => "\x7b...\x7d"

/-- Truthiness of an optional Python string (None and the empty string are
falsy). -/
def optStrTruthy : Option String → Bool
  | Option.none => false
  | some s => !s.isEmpty

/-- Exception classes the adapter's control flow distinguishes. -/
inductive ExcKind where
  | runtimeError
  | valueError
  | typeError
  | otherError
deriving DecidableEq

/-- A raised Python exception: its class and its text `str(e)`. -/
abbrev PyExc := ExcKind × String

/-- The inner handler at provider.py line 212 catches exactly
`(ValueError, TypeError)`. -/
def excCaughtByInner : ExcKind → Bool
  | ExcKind.valueError => true
  | ExcKind.typeError => true
  | _ => false

/- Association-list model of a Python dict with string keys:
lookup finds the (unique) binding, assignment overwrites in place. -/

/-- `m.get(key)` returning `some v` on a hit, `none` on a miss. -/
def attrGet? : List (String × PyVal) → String → Option PyVal
  | [], _ => Option.none
  | (k, v) :: rest, key => if k = key then some v else attrGet? rest key

/-- `m.get(key)`: Python returns None on a miss. -/
def attrGet (m : List (String × PyVal)) (key : String) : PyVal :=
  (attrGet? m key).getD PyVal.none

/-- `m[key] = v`: overwrite the existing binding in place, or append. -/
def attrSet : List (String × PyVal) → String → PyVal → List (String × PyVal)
  | [], key, v => [(key, v)]
  | (k, w) :: rest, key, v =>
      if k = key then (key, v) :: rest else (k, w) :: attrSet rest key v

/-- OpenFeature `EvaluationContext`: an optional targeting key and an
attribute mapping. -/
structure EvaluationContext where
  targeting_key : Option String
  attributes : List (String × PyVal)

/-- GrowthBook `UserContext` (the part the adapter populates). -/
structure UserContext where
  attributes : List (String × PyVal)

/-- GrowthBook experiment result (the field the adapter reads). -/
structure ExperimentResult where
  variationId : PyVal

/-- GrowthBook `FeatureResult` as consumed by the adapter: the raw value,
the matched rule id (None or empty when no rule matched) and the optional
experiment result. -/
structure FeatureResult where
  value : PyVal
  ruleId : Option String
  experimentResult : Option ExperimentResult

/-- OpenFeature `Reason` enumeration. -/
inductive Reason where
  | DISABLED
  | SPLIT
  | STATIC
  | TARGETING_MATCH
  | UNKNOWN
  | CACHED
  | DEFAULT
  | ERROR
deriving DecidableEq

/-- OpenFeature `ErrorCode` enumeration. -/
inductive ErrorCode where
  | PROVIDER_NOT_READY
  | PROVIDER_FATAL
  | FLAG_NOT_FOUND
  | PARSE_ERROR
  | TYPE_MISMATCH
  | TARGETING_KEY_MISSING
  | INVALID_CONTEXT
  | GENERAL
deriving DecidableEq

/-- OpenFeature `FlagResolutionDetails`. -/
structure FlagResolutionDetails where
  value : PyVal
  error_code : Option ErrorCode
  error_message : Option String
  reason : Option Reason
  variant : Option String

/- Models of the Python builtins used as `value_converter` arguments. -/

/-- Value of a nonempty all-digit character list, base 10. -/
def digitsVal : List Char → Option Nat
  | [] => Option.none
  | cs =>
      if cs.all Char.isDigit then
        some (cs.foldl (fun a c => a * 10 + (c.toNat - 48)) 0)
      else Option.none

/-- Strip leading and trailing whitespace from a character list. -/
def trimL (cs : List Char) : List Char :=
  ((cs.dropWhile Char.isWhitespace).reverse.dropWhile Char.isWhitespace).reverse

/-- Python `int(s)` on a string: optional surrounding whitespace, optional
sign, a nonempty digit run (digit-group underscores are not modelled). -/
def pyParseInt (s : String) : Option Int :=
  match trimL s.data with
  | '-' :: rest => (digitsVal rest).map (fun n => -(n : Int))
  | '+' :: rest => (digitsVal rest).map (fun n => (n : Int))
  | cs => (digitsVal cs).map (fun n => (n : Int))

/-- Digit-list value without the nonempty requirement (for the two sides of
a decimal point, where one side may be empty). -/
def digitsValLoose (cs : List Char) : Nat :=
  cs.foldl (fun a c => a * 10 + (c.toNat - 48)) 0

/-- Split a character list at the dots. -/
def splitOnDot : List Char → List (List Char)
  | [] => [[]]
  | c :: rest =>
      if c = '.' then [] :: splitOnDot rest
      else
        match splitOnDot rest with
        | [] => [[c]]
        | g :: gs => (c :: g) :: gs

/-- Unsigned decimal literal: `ddd`, `ddd.`, `.ddd` or `ddd.ddd`
(exponents, `inf` and `nan` are not modelled; no claim depends on them). -/
def parseUnsignedFloat (cs : List Char) : Option Rat :=
  match splitOnDot cs with
  | [ip] => (digitsVal ip).map (fun n => (n : Rat))
  | [ip, fp] =>
      if ip.isEmpty && fp.isEmpty then Option.none
      else if (ip.isEmpty || ip.all Char.isDigit)
          && (fp.isEmpty || fp.all Char.isDigit) then
        some ((digitsValLoose ip : Rat)
          + (digitsValLoose fp : Rat) / ((10 : Rat) ^ fp.length))
      else Option.none
  | _ => Option.none

/-- Python `float(s)` on a string: optional surrounding whitespace and an
optional sign before an unsigned decimal literal. -/
def pyParseFloat (s : String) : Option Rat :=
  match trimL s.data with
  | '-' :: rest => (parseUnsignedFloat rest).map (fun q => -q)
  | '+' :: rest => parseUnsignedFloat rest
  | cs => parseUnsignedFloat cs

/-- Python `bool(x)`: never raises. -/
def convBool (v : PyVal) : Except PyExc PyVal :=
  Except.ok (PyVal.bool (pyTruthy v))

/-- Python `str(x)`: never raises. -/
def convStr (v : PyVal) : Except PyExc PyVal :=
  Except.ok (PyVal.str (pyStr v))

/-- The source's default converter `lambda x: x`. -/
def convId (v : PyVal) : Except PyExc PyVal := Except.ok v

/-- Python `int(x)`: numbers are truncated toward zero, numeric strings are
parsed, everything else raises `TypeError`/`ValueError`. -/
def convInt : PyVal → Except PyExc PyVal
  | PyVal.none =>
      Except.error (ExcKind.typeError,
        "int() argument must be a string, a bytes-like object or a real number, not NoneType")
  | PyVal.bool b => Except.ok (PyVal.int (if b then 1 else 0))
  | PyVal.int n => Except.ok (PyVal.int n)
  | PyVal.float q => Except.ok (PyVal.int (Int.tdiv q.num (q.den : Int)))
  | PyVal.str s =>
      match pyParseInt s with
      | some n => Except.ok (PyVal.int n)
      | Option.none =>
          Except.error (ExcKind.valueError,
            "invalid literal for int() with base 10: " ++ s)
  | PyVal.list _ =>
      Except.error (ExcKind.typeError,
        "int() argument must be a string, a bytes-like object or a real number, not list")
  | PyVal.dict _ =>
      Except.error (ExcKind.typeError,
        "int() argument must be a string, a bytes-like object or a real number, not dict")

/-- Python `float(x)`: numbers pass through, numeric strings are parsed,
everything else raises `TypeError`/`ValueError`. -/
def convFloat : PyVal → Except PyExc PyVal
  | PyVal.none =>
      Except.error (ExcKind.typeError,
        "float() argument must be a string or a real number, not NoneType")
  | PyVal.bool b => Except.ok (PyVal.float (if b then 1 else 0))
  | PyVal.int n => Except.ok (PyVal.float (n : Rat))
  | PyVal.float q => Except.ok (PyVal.float q)
  | PyVal.str s =>
      match pyParseFloat s with
      | some q => Except.ok (PyVal.float q)
      | Option.none =>
          Except.error (ExcKind.valueError,
            "could not convert string to float: " ++ s)
  | PyVal.list _ =>
      Except.error (ExcKind.typeError,
        "float() argument must be a string or a real number, not list")
  | PyVal.dict _ =>
      Except.error (ExcKind.typeError,
        "float() argument must be a string or a real number, not dict")

/- The sync-over-async bridge `run_async` (provider.py lines 43-60). -/

/-- Ambient asyncio state of the calling thread:
`runningLoop` — `asyncio.get_event_loop()` succeeds and the loop is running
(the call originates from inside the backend's execution context);
`idleLoop` — `get_event_loop()` succeeds and the loop is open but idle;
`noLoop` — `get_event_loop()` raises `RuntimeError` (no current loop). -/
inductive LoopState where
  | runningLoop
  | idleLoop
  | noLoop
deriving DecidableEq

/-- Shape of a successful `run_async` return: a resolved value, or the
unresolved pending handle (`asyncio.Task`) that the repository's tests
expect in the running-loop case. -/
inductive RunAsyncOutcome (α : Type) where
  | value (a : α)
  | pendingTask
deriving DecidableEq

/-- Model of `run_async` (provider.py lines 43-60).

With a current loop (running or idle), line 48 resp. line 50 runs the
coroutine and returns its value; `.result()` on the threadsafe future also
blocks for the value (when invoked from the running loop's own thread that
blocking call can never complete — a liveness failure outside this model).
A `RuntimeError` raised by the coroutine is caught by the
`except RuntimeError` clause at line 51, which re-awaits the
already-consumed coroutine on a fresh loop and therefore raises
`RuntimeError("cannot reuse already awaited coroutine")`; any other
exception is wrapped at lines 59-60 into
`RuntimeError("Failed to execute async code: " + str(e))`.
With no current loop, the handler at lines 53-58 runs the coroutine on a
fresh loop; its value or exception passes through unwrapped (exceptions
raised inside one handler are not caught by the sibling clauses). -/
def run_async {α : Type} (env : LoopState) (coro : Except PyExc α) :
    Except PyExc (RunAsyncOutcome α) :=
  match env with
  | LoopState.runningLoop
  | LoopState.idleLoop =>
      match coro with
      | Except.ok a => Except.ok (RunAsyncOutcome.value a)
      | Except.error (ExcKind.runtimeError, _) =>
          Except.error (ExcKind.runtimeError,
            "cannot reuse already awaited coroutine")
      | Except.error (_, msg) =>
          Except.error (ExcKind.runtimeError,
            "Failed to execute async code: " ++ msg)
  | LoopState.noLoop =>
      match coro with
      | Except.ok a => Except.ok (RunAsyncOutcome.value a)
      | Except.error e => Except.error e

/- The provider (provider.py lines 20-320). -/

/-- `GrowthBookProviderOptions` (provider.py lines 20-41); the two callback
fields are opaque to the adapter's control flow and are not modelled. -/
structure GrowthBookProviderOptions where
  api_host : String
  client_key : String
  decryption_key : String := ""
  cache_ttl : Int := 60
  enabled : Bool := true
  qa_mode : Bool := false

/-- The growthbook `Options` object built in `__init__`
(provider.py lines 97-105). -/
structure Options where
  api_host : String
  client_key : String
  decryption_key : String
  cache_ttl : Int
  enabled : Bool
  qa_mode : Bool

/-- The `GrowthBookClient` as consumed by the adapter: whether it exposes a
`features` attribute, the loaded features (flag key ↦ `defaultValue`), and
the outcome of `eval_feature` for each key/user-context pair (an exception
models a raising backend). -/
structure ClientModel where
  hasFeaturesAttr : Bool
  features : List (String × PyVal)
  evalFeature : String → UserContext → Except PyExc (Option FeatureResult)

/-- Adapter state: the stored options, the optional client handle and the
`self.initialized` flag. -/
structure ProviderModel where
  gb_options : Options
  client : Option ClientModel
  initialized : Bool

/-- `GrowthBookProvider.__init__` (provider.py lines 94-112): stores the
options, no client yet, not initialized. -/
def GrowthBookProvider.construct (provider_options : GrowthBookProviderOptions) :
    ProviderModel :=
  { gb_options :=
      { api_host := provider_options.api_host
        client_key := provider_options.client_key
        decryption_key := provider_options.decryption_key
        cache_ttl := provider_options.cache_ttl
        enabled := provider_options.enabled
        qa_mode := provider_options.qa_mode }
    client := Option.none
    initialized := false }

/-- `initialize` (provider.py lines 114-117): installs a client and records
the backend's initialization outcome in `self.initialized`. -/
def GrowthBookProvider.initializeModel (p : ProviderModel) (c : ClientModel)
    (backend_init_ok : Bool) : ProviderModel :=
  { p with client := some c, initialized := backend_init_ok }

/-- `close` (provider.py lines 315-320): with a client, releases it and
clears `initialized`; otherwise a no-op. -/
def GrowthBookProvider.closeModel (p : ProviderModel) : ProviderModel :=
  match p.client with
  | some _ => { p with client := Option.none, initialized := false }
  | Option.none => p

/-- `_create_user_context` (provider.py lines 131-151): no context gives an
empty `UserContext`; otherwise the attributes are (shallow-)copied and a
truthy `targeting_key` is written into `attributes["id"]`. -/
def _create_user_context : Option EvaluationContext → UserContext
  | Option.none => { attributes := [] }
  | some ctx =>
      let attributes := ctx.attributes
      match ctx.targeting_key with
      | some tk =>
          if tk.isEmpty then { attributes := attributes }
          else { attributes := attrSet attributes "id" (PyVal.str tk) }
      | Option.none => { attributes := attributes }

/-- The guard condition of provider.py line 183:
`not user_context.attributes.get('id') and evaluation_context and
evaluation_context.targeting_key`. -/
def targetingGuard (evaluation_context : Option EvaluationContext)
    (user_context : UserContext) : Bool :=
  !pyTruthy (attrGet user_context.attributes "id") &&
    (match evaluation_context with
     | Option.none => false
     | some ctx => optStrTruthy ctx.targeting_key)

/-- The fast-path lookup of provider.py line 191:
`hasattr(self.client, 'features') and flag_key in self.client.features`,
returning the found feature's `defaultValue`. -/
def fastPathFeature (client : ClientModel) (flag_key : String) : Option PyVal :=
  if client.hasFeaturesAttr then attrGet? client.features flag_key
  else Option.none

/-- `_process_flag_evaluation` (provider.py lines 153-244). The `env`
parameter is the ambient asyncio state seen by `run_async` at line 199. -/
def _process_flag_evaluation (env : LoopState) (p : ProviderModel)
    (flag_key : String) (default_value : PyVal)
    (evaluation_context : Option EvaluationContext)
    (value_converter : PyVal → Except PyExc PyVal) : FlagResolutionDetails :=
  match p.client with
  | Option.none =>
      { value := default_value, error_code := some ErrorCode.PROVIDER_NOT_READY,
        error_message := Option.none, reason := some Reason.ERROR,
        variant := Option.none }
  | some client =>
    if !p.initialized then
      { value := default_value, error_code := some ErrorCode.PROVIDER_NOT_READY,
        error_message := Option.none, reason := some Reason.ERROR,
        variant := Option.none }
    else
      let user_context := _create_user_context evaluation_context
      if targetingGuard evaluation_context user_context then
        { value := default_value,
          error_code := some ErrorCode.TARGETING_KEY_MISSING,
          error_message := Option.none, reason := some Reason.ERROR,
          variant := Option.none }
      else
        match fastPathFeature client flag_key with
        | some feature_defaultValue =>
            -- line 194: this conversion is outside the inner try, so a
            -- failure is caught by the outer handler (GENERAL)
            match value_converter feature_defaultValue with
            | Except.ok v =>
                { value := v, error_code := Option.none,
                  error_message := Option.none, reason := some Reason.DEFAULT,
                  variant := Option.none }
            | Except.error e =>
                { value := default_value, error_code := some ErrorCode.GENERAL,
                  error_message := some e.2, reason := some Reason.ERROR,
                  variant := Option.none }
        | Option.none =>
            match run_async env (client.evalFeature flag_key user_context) with
            | Except.error e =>
                -- outer handler, lines 238-244
                { value := default_value, error_code := some ErrorCode.GENERAL,
                  error_message := some e.2, reason := some Reason.ERROR,
                  variant := Option.none }
            | Except.ok RunAsyncOutcome.pendingTask =>
                -- unreachable in this model (run_async never returns a
                -- pending handle); in Python a Task here would fail at
                -- `feature_result.value` and fall to the outer handler
                { value := default_value, error_code := some ErrorCode.GENERAL,
                  error_message := some "Task object has no attribute value",
                  reason := some Reason.ERROR, variant := Option.none }
            | Except.ok (RunAsyncOutcome.value Option.none) =>
                -- lines 202-207: flag unknown to the backend
                { value := default_value, error_code := Option.none,
                  error_message := Option.none, reason := some Reason.DEFAULT,
                  variant := Option.none }
            | Except.ok (RunAsyncOutcome.value (some feature_result)) =>
                match (if feature_result.value.isNone then
                        Except.ok default_value
                      else value_converter feature_result.value) with
                | Except.error e =>
                    if excCaughtByInner e.1 then
                      -- lines 212-218
                      { value := default_value,
                        error_code := some ErrorCode.TYPE_MISMATCH,
                        error_message := some ("Failed to convert value: " ++ e.2),
                        reason := some Reason.ERROR, variant := Option.none }
                    else
                      -- not (ValueError, TypeError): outer handler
                      { value := default_value,
                        error_code := some ErrorCode.GENERAL,
                        error_message := some e.2, reason := some Reason.ERROR,
                        variant := Option.none }
                | Except.ok value =>
                    -- lines 220-237
                    if optStrTruthy feature_result.ruleId then
                      { value := value, error_code := Option.none,
                        error_message := Option.none,
                        reason := some Reason.TARGETING_MATCH,
                        variant := feature_result.ruleId }
                    else
                      match feature_result.experimentResult with
                      | some er =>
                          { value := value, error_code := Option.none,
                            error_message := Option.none,
                            reason := some Reason.SPLIT,
                            variant := some (pyStr er.variationId) }
                      | Option.none =>
                          { value := value, error_code := Option.none,
                            error_message := Option.none,
                            reason := some Reason.DEFAULT,
                            variant := Option.none }

/-- `resolve_boolean_details` (provider.py lines 246-258). -/
def resolve_boolean_details (env : LoopState) (p : ProviderModel)
    (flag_key : String) (default_value : Bool)
    (evaluation_context : Option EvaluationContext) : FlagResolutionDetails :=
  _process_flag_evaluation env p flag_key (PyVal.bool default_value)
    evaluation_context convBool

/-- `resolve_string_details` (provider.py lines 260-272). -/
def resolve_string_details (env : LoopState) (p : ProviderModel)
    (flag_key : String) (default_value : String)
    (evaluation_context : Option EvaluationContext) : FlagResolutionDetails :=
  _process_flag_evaluation env p flag_key (PyVal.str default_value)
    evaluation_context convStr

/-- `resolve_integer_details` (provider.py lines 274-286). -/
def resolve_integer_details (env : LoopState) (p : ProviderModel)
    (flag_key : String) (default_value : Int)
    (evaluation_context : Option EvaluationContext) : FlagResolutionDetails :=
  _process_flag_evaluation env p flag_key (PyVal.int default_value)
    evaluation_context convInt

/-- `resolve_float_details` (provider.py lines 288-300). -/
def resolve_float_details (env : LoopState) (p : ProviderModel)
    (flag_key : String) (default_value : Rat)
    (evaluation_context : Option EvaluationContext) : FlagResolutionDetails :=
  _process_flag_evaluation env p flag_key (PyVal.float default_value)
    evaluation_context convFloat

/-- `resolve_object_details` (provider.py lines 302-313): uses the default
identity converter. -/
def resolve_object_details (env : LoopState) (p : ProviderModel)
    (flag_key : String) (default_value : PyVal)
    (evaluation_context : Option EvaluationContext) : FlagResolutionDetails :=
  _process_flag_evaluation env p flag_key default_value
    evaluation_context convId

/- Substring containment, used to state "errorMessage contains the original
failure text". -/

/-- `needle` is an initial segment of `hay`. -/
def startsWithL : List Char → List Char → Bool
  | [], _ => true
  | _ :: _, [] => false
  | c :: cs, d :: ds => c == d && startsWithL cs ds

/-- `needle` occurs contiguously somewhere in `hay`. -/
def infixOfL (needle : List Char) : List Char → Bool
  | [] => startsWithL needle []
  | c :: rest => startsWithL needle (c :: rest) || infixOfL needle rest

/-- String containment, Python `needle in hay`. -/
def strContains (hay needle : String) : Bool :=
  infixOfL needle.data hay.data

/- Helper lemmas shared by the claim proofs. -/

theorem attrSet_get_self (m : List (String × PyVal)) (k : String) (v : PyVal) :
    attrGet? (attrSet m k v) k = some v := by
  induction m with
  | nil => simp [attrSet, attrGet?]
  | cons hd tl ih =>
      obtain ⟨k', w⟩ := hd
      by_cases h : k' = k <;> simp [attrSet, attrGet?, h, ih]

/-- A supplied truthy targeting key always ends up as a truthy `id`
attribute, so the guard of provider.py line 183 is never satisfied. -/
theorem targetingGuard_eq_false (ec : Option EvaluationContext) :
    targetingGuard ec (_create_user_context ec) = false := by
  match ec with
  | Option.none => simp [targetingGuard]
  | some ctx =>
      match h : ctx.targeting_key with
      | Option.none => simp [targetingGuard, h, optStrTruthy]
      | some tk =>
          by_cases he : tk.isEmpty
          · simp [targetingGuard, h, optStrTruthy, he]
          · simp only [targetingGuard, _create_user_context, h, he,
              if_false, Bool.if_false_right]
            simp [attrGet, attrSet_get_self, pyTruthy, he, optStrTruthy]

theorem startsWithL_self (cs : List Char) : startsWithL cs cs = true := by
  induction cs with
  | nil => rfl
  | cons c cs ih => simp [startsWithL, ih]

theorem infixOfL_append_self (p m : List Char) : infixOfL m (p ++ m) = true := by
  induction p with
  | nil =>
      cases m with
      | nil => rfl
      | cons c cs => simp [infixOfL, startsWithL_self]
  | cons c p ih => simp [infixOfL, ih]

theorem strContains_append (pre m : String) :
    strContains (pre ++ m) m = true := by
  simp only [strContains, String.data_append]
  exact infixOfL_append_self pre.data m.data

theorem strContains_self (m : String) : strContains m m = true := by
  simpa using strContains_append "" m

/-- C6: on every path of `_process_flag_evaluation` — for any provider
state, inputs, converter and backend behaviour — the returned resolution
has `error_code` set exactly when its `reason` is `Error`. -/
theorem c6_error_code_iff_reason_error (env : LoopState) (p : ProviderModel)
    (flag_key : String) (default_value : PyVal)
    (evaluation_context : Option EvaluationContext)
    (value_converter : PyVal → Except PyExc PyVal) :
    ((_process_flag_evaluation env p flag_key default_value evaluation_context
        value_converter).error_code).isSome = true ↔
      (_process_flag_evaluation env p flag_key default_value evaluation_context
        value_converter).reason = some Reason.ERROR := by
  unfold _process_flag_evaluation
  simp only [targetingGuard_eq_false, Bool.false_eq_true, if_false]
  repeat' split
  all_goals simp

/-- C9: no resolution ever carries `TargetingKeyMissing`: the guard at
provider.py line 183 demands a missing (falsy) `id` attribute together with
a truthy targeting key, but `_create_user_context` copies every truthy
targeting key into `attributes["id"]`, so the branch is unreachable for
every provider state, flag key, default, context, converter and backend. -/
theorem c9_targeting_key_missing_unreachable (env : LoopState)
    (p : ProviderModel) (flag_key : String) (default_value : PyVal)
    (evaluation_context : Option EvaluationContext)
    (value_converter : PyVal → Except PyExc PyVal) :
    (_process_flag_evaluation env p flag_key default_value evaluation_context
        value_converter).error_code ≠ some ErrorCode.TARGETING_KEY_MISSING := by
  unfold _process_flag_evaluation
  simp only [targetingGuard_eq_false, Bool.false_eq_true, if_false]
  repeat' split
  all_goals simp

/-- C3 (refuting theorem): `_process_flag_evaluation` never returns reason
`Disabled`, whatever the stored options (in particular with
`enabled = false`): the code never branches on `enabled` and `provider.py`
contains no occurrence of `Reason.DISABLED`, contradicting the spec's
disabled short-circuit and the repository's own `test_provider_disabled`. -/
theorem c3_reason_never_disabled (env : LoopState) (p : ProviderModel)
    (flag_key : String) (default_value : PyVal)
    (evaluation_context : Option EvaluationContext)
    (value_converter : PyVal → Except PyExc PyVal) :
    (_process_flag_evaluation env p flag_key default_value evaluation_context
        value_converter).reason ≠ some Reason.DISABLED := by
  unfold _process_flag_evaluation
  simp only [targetingGuard_eq_false, Bool.false_eq_true, if_false]
  repeat' split
  all_goals simp

/-- C2: whenever `initialize` has not completed successfully — no client
(fresh provider), backend initialization returned `False`, or the provider
was closed — every resolution returns the caller's default with
`ProviderNotReady` and reason `Error`. The result is a constant record, so
it does not depend on the client's `evalFeature`: the backend is not
invoked. The last three conjuncts show the fresh, failed-initialization and
closed states all satisfy the gate `not self.client or not
self.initialized`. -/
theorem c2_provider_not_ready :
    (∀ (env : LoopState) (p : ProviderModel),
        p.client = Option.none ∨ p.initialized = false →
        ∀ (flag_key : String) (default_value : PyVal)
          (evaluation_context : Option EvaluationContext)
          (value_converter : PyVal → Except PyExc PyVal),
        _process_flag_evaluation env p flag_key default_value
            evaluation_context value_converter =
          { value := default_value,
            error_code := some ErrorCode.PROVIDER_NOT_READY,
            error_message := Option.none, reason := some Reason.ERROR,
            variant := Option.none }) ∧
    (∀ o, (GrowthBookProvider.construct o).client = Option.none) ∧
    (∀ p c, (GrowthBookProvider.initializeModel p c false).initialized = false) ∧
    (∀ p, (GrowthBookProvider.closeModel p).client = Option.none) := by
  refine ⟨?_, fun o => rfl, fun p c => rfl, ?_⟩
  · intro env p h flag_key default_value evaluation_context value_converter
    rcases h with hc | hi
    · unfold _process_flag_evaluation
      simp [hc]
    · rcases hpc : p.client with _ | c
      · unfold _process_flag_evaluation
        simp [hpc]
      · unfold _process_flag_evaluation
        simp [hpc, hi]
  · intro p
    rcases hpc : p.client with _ | c <;> simp [GrowthBookProvider.closeModel, hpc]

/-- C2 witness: a freshly constructed provider resolves to the default with
`ProviderNotReady`. -/
theorem c2_provider_not_ready_witness :
    _process_flag_evaluation LoopState.noLoop
        (GrowthBookProvider.construct
          { api_host := "https://cdn.growthbook.io", client_key := "test-key" })
        "test-flag" (PyVal.bool false) Option.none convBool =
      { value := PyVal.bool false,
        error_code := some ErrorCode.PROVIDER_NOT_READY,
        error_message := Option.none, reason := some Reason.ERROR,
        variant := Option.none } :=
  c2_provider_not_ready.1 LoopState.noLoop _ (Or.inl rfl) "test-flag"
    (PyVal.bool false) Option.none convBool

/-- C4: `_create_user_context` returns an empty user context for an absent
context; otherwise it copies the attributes and, when a non-empty targeting
key is supplied, writes it over any prior `"id"` binding (the written
binding is what a subsequent `"id"` lookup sees); with an absent or empty
targeting key the attributes are copied unchanged; and on the spec's
example the result is exactly `{country: "US", id: "user-123"}`. The
source copies the attribute dict (`dict(evaluation_context.attributes)`,
line 145) before assigning into it, which is why this pure model is
faithful and the original context is unchanged. -/
theorem c4_context_translation :
    (_create_user_context Option.none = { attributes := [] }) ∧
    (∀ (tk : String) (attrs : List (String × PyVal)), tk ≠ "" →
        _create_user_context
            (some { targeting_key := some tk, attributes := attrs }) =
          { attributes := attrSet attrs "id" (PyVal.str tk) } ∧
        attrGet? (attrSet attrs "id" (PyVal.str tk)) "id" =
          some (PyVal.str tk)) ∧
    (∀ attrs, _create_user_context
        (some { targeting_key := Option.none, attributes := attrs }) =
      { attributes := attrs }) ∧
    (∀ attrs, _create_user_context
        (some { targeting_key := some "", attributes := attrs }) =
      { attributes := attrs }) ∧
    (_create_user_context
        (some { targeting_key := some "user-123",
                attributes := [("country", PyVal.str "US")] }) =
      { attributes := [("country", PyVal.str "US"),
                       ("id", PyVal.str "user-123")] }) := by
  refine ⟨rfl, ?_, fun attrs => rfl, fun attrs => rfl, rfl⟩
  intro tk attrs htk
  have he : tk.isEmpty = false := by
    cases h : tk.isEmpty
    · rfl
    · exact absurd ((String.isEmpty_iff tk).mp h) htk
  exact ⟨by simp [_create_user_context, he], attrSet_get_self attrs "id" _⟩

theorem isEmpty_false_of_ne {s : String} (h : s ≠ "") : s.isEmpty = false := by
  cases hs : s.isEmpty
  · rfl
  · exact absurd ((String.isEmpty_iff s).mp hs) h

theorem run_async_ok {α : Type} (env : LoopState) (a : α) :
    run_async env (Except.ok a) = Except.ok (RunAsyncOutcome.value a) := by
  cases env <;> rfl

/-- C4 witness: the translation at the spec's example inputs. -/
theorem c4_context_translation_witness :
    _create_user_context
        (some { targeting_key := some "user-123",
                attributes := [("country", PyVal.str "US")] }) =
      { attributes := [("country", PyVal.str "US"),
                       ("id", PyVal.str "user-123")] } :=
  (c4_context_translation.2.1 "user-123" [("country", PyVal.str "US")]
      (by decide)).1

/-- Sample options used by concrete witnesses. -/
def demoOpts : Options :=
  { api_host := "h", client_key := "k", decryption_key := "",
    cache_ttl := 60, enabled := true, qa_mode := false }

/-- A ready provider around a given client. -/
def readyProvider (c : ClientModel) : ProviderModel :=
  { gb_options := demoOpts, client := some c, initialized := true }

/-- A backend client whose `eval_feature` always yields the given outcome
and which exposes no feature fast path. -/
def constClient (r : Except PyExc (Option FeatureResult)) : ClientModel :=
  { hasFeaturesAttr := false, features := [], evalFeature := fun _ _ => r }

/-- Scenario C backend result: `{value: 5, ruleId: "rule1"}`. -/
def rule1IntResult : FeatureResult :=
  { value := PyVal.int 5, ruleId := some "rule1",
    experimentResult := Option.none }

/-- A backend result with a null raw value under a matched rule. -/
def nullRuleResult : FeatureResult :=
  { value := PyVal.none, ruleId := some "rule1",
    experimentResult := Option.none }

/-- C5: for a ready provider whose backend returns a present result whose
value coerces successfully (including the null-value skip), the coerced
value is returned and reason/variant are derived from the result: a usable
(non-None, non-empty --- the SDK encodes an absent rule id as None or the
empty string) `ruleId` gives `TargetingMatch` with `variant = ruleId`;
otherwise a present `experimentResult` gives `Split` with
`variant = str(variationId)`; otherwise `Default` with no variant. -/
theorem c5_reason_variant_derivation (env : LoopState) (opts : Options)
    (client : ClientModel) (flag_key : String) (default_value : PyVal)
    (evaluation_context : Option EvaluationContext)
    (value_converter : PyVal → Except PyExc PyVal) (fr : FeatureResult)
    (v : PyVal)
    (hfp : fastPathFeature client flag_key = Option.none)
    (hev : client.evalFeature flag_key (_create_user_context evaluation_context) =
      Except.ok (some fr))
    (hconv : (if fr.value.isNone then Except.ok default_value
        else value_converter fr.value) = Except.ok v) :
    (_process_flag_evaluation env
        { gb_options := opts, client := some client, initialized := true }
        flag_key default_value evaluation_context value_converter).value = v ∧
    (∀ rid, fr.ruleId = some rid → rid ≠ "" →
        (_process_flag_evaluation env
            { gb_options := opts, client := some client, initialized := true }
            flag_key default_value evaluation_context value_converter).reason =
          some Reason.TARGETING_MATCH ∧
        (_process_flag_evaluation env
            { gb_options := opts, client := some client, initialized := true }
            flag_key default_value evaluation_context value_converter).variant =
          some rid) ∧
    (optStrTruthy fr.ruleId = false → ∀ er, fr.experimentResult = some er →
        (_process_flag_evaluation env
            { gb_options := opts, client := some client, initialized := true }
            flag_key default_value evaluation_context value_converter).reason =
          some Reason.SPLIT ∧
        (_process_flag_evaluation env
            { gb_options := opts, client := some client, initialized := true }
            flag_key default_value evaluation_context value_converter).variant =
          some (pyStr er.variationId)) ∧
    (optStrTruthy fr.ruleId = false → fr.experimentResult = Option.none →
        (_process_flag_evaluation env
            { gb_options := opts, client := some client, initialized := true }
            flag_key default_value evaluation_context value_converter).reason =
          some Reason.DEFAULT ∧
        (_process_flag_evaluation env
            { gb_options := opts, client := some client, initialized := true }
            flag_key default_value evaluation_context value_converter).variant =
          Option.none) := by
  unfold _process_flag_evaluation
  simp only [targetingGuard_eq_false, Bool.false_eq_true, Bool.not_true,
    if_false, hfp, hev, run_async_ok, hconv]
  refine ⟨?_, ?_, ?_, ?_⟩
  · cases ht : optStrTruthy fr.ruleId
    · cases her : fr.experimentResult <;> simp [ht, her]
    · simp [ht]
  · intro rid hrid hne
    have ht : optStrTruthy (some rid) = true := by
      simp [optStrTruthy, isEmpty_false_of_ne hne]
    rw [hrid]
    simp [ht]
  · intro hf er her
    simp [hf, her]
  · intro hf her
    simp [hf, her]

/-- C5 witness: Scenario C of the spec --- `evalFeature` returns
`{value: 5, ruleId: "rule1"}` and the integer resolution yields value 5,
variant "rule1", reason `TargetingMatch`. -/
theorem c5_reason_variant_derivation_witness :
    (_process_flag_evaluation LoopState.noLoop
        (readyProvider (constClient (Except.ok (some rule1IntResult))))
        "int-flag" (PyVal.int 0) Option.none convInt).value = PyVal.int 5 ∧
    (_process_flag_evaluation LoopState.noLoop
        (readyProvider (constClient (Except.ok (some rule1IntResult))))
        "int-flag" (PyVal.int 0) Option.none convInt).reason =
      some Reason.TARGETING_MATCH ∧
    (_process_flag_evaluation LoopState.noLoop
        (readyProvider (constClient (Except.ok (some rule1IntResult))))
        "int-flag" (PyVal.int 0) Option.none convInt).variant = some "rule1" := by
  have h := c5_reason_variant_derivation LoopState.noLoop demoOpts
    (constClient (Except.ok (some rule1IntResult)))
    "int-flag" (PyVal.int 0) Option.none convInt rule1IntResult
    (PyVal.int 5) rfl rfl rfl
  exact ⟨h.1, (h.2.1 "rule1" rfl (by decide)).1, (h.2.1 "rule1" rfl (by decide)).2⟩

/-- C10: for a ready provider whose backend returns a present result with a
null (`None`) raw value, coercion is skipped (the conclusion holds for an
arbitrary converter, which is never consulted): the default of the caller is
returned with no error code, while reason/variant are still derived from
`ruleId`/`experimentResult` exactly as for a non-null value. -/
theorem c10_null_value_default_with_derived_reason (env : LoopState)
    (opts : Options) (client : ClientModel) (flag_key : String)
    (default_value : PyVal) (evaluation_context : Option EvaluationContext)
    (value_converter : PyVal → Except PyExc PyVal) (fr : FeatureResult)
    (hfp : fastPathFeature client flag_key = Option.none)
    (hev : client.evalFeature flag_key (_create_user_context evaluation_context) =
      Except.ok (some fr))
    (hnull : fr.value = PyVal.none) :
    _process_flag_evaluation env
        { gb_options := opts, client := some client, initialized := true }
        flag_key default_value evaluation_context value_converter =
      { value := default_value, error_code := Option.none,
        error_message := Option.none,
        reason := some (if optStrTruthy fr.ruleId then Reason.TARGETING_MATCH
          else match fr.experimentResult with
            | some _ => Reason.SPLIT
            | Option.none => Reason.DEFAULT),
        variant := if optStrTruthy fr.ruleId then fr.ruleId
          else match fr.experimentResult with
            | some er => some (pyStr er.variationId)
            | Option.none => Option.none } := by
  unfold _process_flag_evaluation
  simp only [targetingGuard_eq_false, Bool.false_eq_true, Bool.not_true,
    if_false, hfp, hev, run_async_ok, hnull, PyVal.isNone, if_true]
  cases ht : optStrTruthy fr.ruleId
  · cases her : fr.experimentResult <;> simp [ht, her]
  · simp [ht]

/-- C10 witness: a null-valued result under a matched rule yields the
default value together with `TargetingMatch` and no error code. -/
theorem c10_null_value_default_with_derived_reason_witness :
    _process_flag_evaluation LoopState.noLoop
        (readyProvider (constClient (Except.ok (some nullRuleResult))))
        "b-flag" (PyVal.bool true) Option.none convBool =
      { value := PyVal.bool true, error_code := Option.none,
        error_message := Option.none, reason := some Reason.TARGETING_MATCH,
        variant := some "rule1" } := by
  have h := c10_null_value_default_with_derived_reason LoopState.noLoop
    demoOpts (constClient (Except.ok (some nullRuleResult)))
    "b-flag" (PyVal.bool true) Option.none convBool nullRuleResult rfl rfl rfl
  simpa using h

theorem convInt_error_caught (v : PyVal) (k : ExcKind) (msg : String)
    (h : convInt v = Except.error (k, msg)) : excCaughtByInner k = true := by
  cases v with
  | none => simp [convInt] at h; simp [← h.1, excCaughtByInner]
  | bool b => simp [convInt] at h
  | int n => simp [convInt] at h
  | float q => simp [convInt] at h
  | str s =>
      cases hp : pyParseInt s <;> simp [convInt, hp] at h
      simp [← h.1, excCaughtByInner]
  | list xs => simp [convInt] at h; simp [← h.1, excCaughtByInner]
  | dict fs => simp [convInt] at h; simp [← h.1, excCaughtByInner]

theorem convFloat_error_caught (v : PyVal) (k : ExcKind) (msg : String)
    (h : convFloat v = Except.error (k, msg)) : excCaughtByInner k = true := by
  cases v with
  | none => simp [convFloat] at h; simp [← h.1, excCaughtByInner]
  | bool b => simp [convFloat] at h
  | int n => simp [convFloat] at h
  | float q => simp [convFloat] at h
  | str s =>
      cases hp : pyParseFloat s <;> simp [convFloat, hp] at h
      simp [← h.1, excCaughtByInner]
  | list xs => simp [convFloat] at h; simp [← h.1, excCaughtByInner]
  | dict fs => simp [convFloat] at h; simp [← h.1, excCaughtByInner]

/-- C7: for a ready provider whose backend returns a present, non-null raw
value that the `int` resp. `float` builtin rejects, the failure (always a
`ValueError`/`TypeError`, which the inner handler catches) never escapes:
the integer resp. float resolution returns the caller-supplied default,
reason `Error`, `TypeMismatch`, and a message carrying the failure detail. -/
theorem c7_type_mismatch_containment (env : LoopState) (opts : Options)
    (client : ClientModel) (flag_key : String)
    (evaluation_context : Option EvaluationContext) (fr : FeatureResult)
    (hfp : fastPathFeature client flag_key = Option.none)
    (hev : client.evalFeature flag_key (_create_user_context evaluation_context) =
      Except.ok (some fr))
    (hnn : fr.value.isNone = false) :
    (∀ (default_value : Int) (k : ExcKind) (msg : String),
        convInt fr.value = Except.error (k, msg) →
        resolve_integer_details env
            { gb_options := opts, client := some client, initialized := true }
            flag_key default_value evaluation_context =
          { value := PyVal.int default_value,
            error_code := some ErrorCode.TYPE_MISMATCH,
            error_message := some ("Failed to convert value: " ++ msg),
            reason := some Reason.ERROR, variant := Option.none }) ∧
    (∀ (default_value : Rat) (k : ExcKind) (msg : String),
        convFloat fr.value = Except.error (k, msg) →
        resolve_float_details env
            { gb_options := opts, client := some client, initialized := true }
            flag_key default_value evaluation_context =
          { value := PyVal.float default_value,
            error_code := some ErrorCode.TYPE_MISMATCH,
            error_message := some ("Failed to convert value: " ++ msg),
            reason := some Reason.ERROR, variant := Option.none }) := by
  constructor
  · intro default_value k msg hconv
    unfold resolve_integer_details _process_flag_evaluation
    simp only [targetingGuard_eq_false, Bool.false_eq_true, Bool.not_true,
      if_false, hfp, hev, run_async_ok, hnn, hconv,
      convInt_error_caught fr.value k msg hconv, if_true]
  · intro default_value k msg hconv
    unfold resolve_float_details _process_flag_evaluation
    simp only [targetingGuard_eq_false, Bool.false_eq_true, Bool.not_true,
      if_false, hfp, hev, run_async_ok, hnn, hconv,
      convFloat_error_caught fr.value k msg hconv, if_true]

/-- A backend result carrying the non-numeric string "abc". -/
def abcStrResult : FeatureResult :=
  { value := PyVal.str "abc", ruleId := Option.none,
    experimentResult := Option.none }

/-- C7 witness: the raw value "abc" is rejected by `int()` and the integer
resolution surfaces `TypeMismatch` with the default value 7. -/
theorem c7_type_mismatch_containment_witness :
    resolve_integer_details LoopState.noLoop
        (readyProvider (constClient (Except.ok (some abcStrResult))))
        "int-flag" 7 Option.none =
      { value := PyVal.int 7, error_code := some ErrorCode.TYPE_MISMATCH,
        error_message := some
          "Failed to convert value: invalid literal for int() with base 10: abc",
        reason := some Reason.ERROR, variant := Option.none } :=
  (c7_type_mismatch_containment LoopState.noLoop demoOpts
      (constClient (Except.ok (some abcStrResult))) "int-flag" Option.none
      abcStrResult rfl rfl rfl).1 7 ExcKind.valueError
    "invalid literal for int() with base 10: abc" (by rfl)

/-- C1 counterexample: a backend `eval_feature` raising
`RuntimeError("boom")`, with the calling thread holding an open idle event
loop, is caught by `run_async`'s `except RuntimeError` clause, which then
re-awaits the already-consumed coroutine; the surfaced `errorMessage` is
the coroutine-reuse text and does **not** contain the original failure
text "boom", refuting the claim's containment conjunct (value, reason and
error code still behave as claimed). -/
theorem c1_counterexample :
    _process_flag_evaluation LoopState.idleLoop
        (readyProvider (constClient (Except.error (ExcKind.runtimeError, "boom"))))
        "test-flag" (PyVal.str "blue") Option.none convStr =
      { value := PyVal.str "blue", error_code := some ErrorCode.GENERAL,
        error_message := some "cannot reuse already awaited coroutine",
        reason := some Reason.ERROR, variant := Option.none } ∧
    strContains "cannot reuse already awaited coroutine" "boom" = false :=
  ⟨rfl, by decide⟩

/-- C1 amended: for a ready provider whose backend `eval_feature` raises,
no exception escapes: the resolution always carries the caller's default,
reason `Error` and code `General`; the `errorMessage` contains the original
failure text whenever the calling thread has no current event loop, or the
exception is not a `RuntimeError` (it is then wrapped as
"Failed to execute async code: <text>"); but for a `RuntimeError` raised
under a current event loop, the message is replaced by the coroutine-reuse
error and the original text is lost. (In the running-loop case the model
reads off the values the source's blocking calls return; invoked from the
running loop's own thread the call would block forever instead.) -/
theorem c1_general_error_containment_amended (env : LoopState) (opts : Options)
    (client : ClientModel) (flag_key : String) (default_value : PyVal)
    (evaluation_context : Option EvaluationContext)
    (value_converter : PyVal → Except PyExc PyVal) (kind : ExcKind) (msg : String)
    (hfp : fastPathFeature client flag_key = Option.none)
    (hev : client.evalFeature flag_key (_create_user_context evaluation_context) =
      Except.error (kind, msg)) :
    _process_flag_evaluation env
        { gb_options := opts, client := some client, initialized := true }
        flag_key default_value evaluation_context value_converter =
      { value := default_value, error_code := some ErrorCode.GENERAL,
        error_message := some (if env = LoopState.noLoop then msg
          else if kind = ExcKind.runtimeError then
            "cannot reuse already awaited coroutine"
          else "Failed to execute async code: " ++ msg),
        reason := some Reason.ERROR, variant := Option.none } ∧
    ((env = LoopState.noLoop ∨ kind ≠ ExcKind.runtimeError) →
      ∃ m, (_process_flag_evaluation env
          { gb_options := opts, client := some client, initialized := true }
          flag_key default_value evaluation_context value_converter).error_message =
        some m ∧ strContains m msg = true) := by
  have heq : _process_flag_evaluation env
      { gb_options := opts, client := some client, initialized := true }
      flag_key default_value evaluation_context value_converter =
    { value := default_value, error_code := some ErrorCode.GENERAL,
      error_message := some (if env = LoopState.noLoop then msg
        else if kind = ExcKind.runtimeError then
          "cannot reuse already awaited coroutine"
        else "Failed to execute async code: " ++ msg),
      reason := some Reason.ERROR, variant := Option.none } := by
    unfold _process_flag_evaluation
    simp only [targetingGuard_eq_false, Bool.false_eq_true, Bool.not_true,
      if_false, hfp, hev]
    cases env <;> cases kind <;> simp [run_async]
  refine ⟨heq, ?_⟩
  intro h
  rw [heq]
  refine ⟨_, rfl, ?_⟩
  cases env <;> cases kind <;>
    simp_all [strContains_self, strContains_append]

/-- C1 amended witness: a non-RuntimeError backend failure "boom" in a
thread without a current loop surfaces `General` with the original text. -/
theorem c1_general_error_containment_amended_witness :
    _process_flag_evaluation LoopState.noLoop
        (readyProvider (constClient (Except.error (ExcKind.otherError, "boom"))))
        "button-color" (PyVal.str "blue") Option.none convStr =
      { value := PyVal.str "blue", error_code := some ErrorCode.GENERAL,
        error_message := some "boom", reason := some Reason.ERROR,
        variant := Option.none } ∧
    ∃ m, (_process_flag_evaluation LoopState.noLoop
        (readyProvider (constClient (Except.error (ExcKind.otherError, "boom"))))
        "button-color" (PyVal.str "blue") Option.none convStr).error_message =
      some m ∧ strContains m "boom" = true := by
  have h := c1_general_error_containment_amended LoopState.noLoop demoOpts
    (constClient (Except.error (ExcKind.otherError, "boom"))) "button-color"
    (PyVal.str "blue") Option.none convStr ExcKind.otherError "boom" rfl rfl
  exact ⟨by simpa using h.1, h.2 (Or.inl rfl)⟩

/-- C8 (refuting theorem for the claimed return-shape asymmetry): as
written, `run_async` yields the coroutine's resolved value in every
scheduler environment — the running-loop branch calls `.result()` on the
threadsafe future (line 48), which blocks for the value rather than
returning a pending `asyncio.Task` (and, invoked from the running loop's
own thread, that blocking call can never complete). The repository's own
tests (`test_run_async_in_async_context`, `test_run_async_nested`) assert
an `asyncio.Task` is returned, so the code contradicts its tests. -/
theorem c8_run_async_value_shape_both_cases (α : Type) (a : α) :
    run_async LoopState.runningLoop (Except.ok a) =
      Except.ok (RunAsyncOutcome.value a) ∧
    run_async LoopState.idleLoop (Except.ok a) =
      Except.ok (RunAsyncOutcome.value a) ∧
    run_async LoopState.noLoop (Except.ok a) =
      Except.ok (RunAsyncOutcome.value a) ∧
    run_async LoopState.runningLoop (Except.ok a) ≠
      Except.ok RunAsyncOutcome.pendingTask := by
  refine ⟨rfl, rfl, rfl, ?_⟩
  simp [run_async]

end GrowthBookOF
